import Mathlib

namespace Edu

/-!
Verification of the event-driven notification pipeline of the
`eduplatform_backend` repository: the event envelope (`shared/events/base.py`,
`shared/events/user_events.py`), the Kafka producer and consumer managers
(`shared/messaging/kafka_producer.py`, `shared/messaging/kafka_consumer.py`),
and the notification-service event handlers
(`services/notification_service/app/handlers/user_events.py`) together with the
repository layer they use
(`shared/database/repository.py`,
`services/notification_service/app/repositories/notification_repository.py`).

Python `uuid.UUID` values are modelled as the 128-bit natural number they wrap;
`str(uuid)` and `uuid.UUID(s)` are modelled concretely (hex digits with dashes,
following CPython's `uuid.UUID` constructor, which removes dashes and parses
32 hex digits).  Naive `datetime` values are modelled as their seven integer
components; `datetime.isoformat()` and ISO-8601 parsing (what pydantic applies
to an incoming string) are modelled concretely as well.
-/

/-! ## Fixed-width positional digit codecs

`str(uuid)` prints a 128-bit number as 32 zero-padded hexadecimal digits and
`datetime.isoformat()` prints each timestamp component as a zero-padded decimal
field, so both codecs reduce to fixed-width base-`b` digit strings. -/

/-- The `w` base-`b` digits of `n`, most significant first (zero padded),
as `"%0*x" / "%0*d"` formatting produces them. -/
def natToFixed (b : Nat) : Nat → Nat → List Nat
  | 0, _ => []
  | w + 1, n => natToFixed b w (n / b) ++ [n % b]

/-- Reassemble a most-significant-first digit list into a number. -/
def fixedToNat (b : Nat) (ds : List Nat) : Nat :=
  ds.foldl (fun acc d => acc * b + d) 0

/-! ## Hexadecimal and decimal characters -/

/-- Lowercase hexadecimal digit character, as CPython's `%x` produces. -/
def hexChar (d : Nat) : Char :=
  if d < 10 then Char.ofNat (48 + d) else Char.ofNat (87 + d)

/-- Value of a hexadecimal digit character (`int(c, 16)` on one character;
CPython accepts both cases, canonical output is lowercase). -/
def hexVal (c : Char) : Option Nat :=
  let n := c.toNat
  if 48 ≤ n ∧ n ≤ 57 then some (n - 48)
  else if 97 ≤ n ∧ n ≤ 102 then some (n - 87)
  else if 65 ≤ n ∧ n ≤ 70 then some (n - 55)
  else none

/-- Decimal digit character, as zero-padded `%d` formatting produces. -/
def decChar (d : Nat) : Char := Char.ofNat (48 + d)

/-- Value of a decimal digit character. -/
def decVal (c : Char) : Option Nat :=
  let n := c.toNat
  if 48 ≤ n ∧ n ≤ 57 then some (n - 48) else none

/-- Parse a digit list with a per-character digit function, failing on the
first non-digit. -/
def digitsVal (val : Char → Option Nat) : List Char → Option (List Nat)
  | [] => some []
  | c :: cs =>
    match val c, digitsVal val cs with
    | some d, some ds => some (d :: ds)
    | _, _ => none

/-- Parse a fixed-width base-`b` number from its digit characters. -/
def parseFixed (b : Nat) (val : Char → Option Nat) (cs : List Char) : Option Nat :=
  (digitsVal val cs).map (fixedToNat b)

/-! ## UUID strings

`str(uuid.UUID)` prints the 128-bit value as 32 lowercase hex digits with
dashes after digits 8, 12, 16 and 20; `uuid.UUID(s)` removes the dashes and
parses exactly 32 hex digits (base 16). -/

/-- Insert the canonical `8-4-4-4-12` dashes into a 32-character digit list. -/
def withDashes (cs : List Char) : List Char :=
  cs.take 8 ++ '-' :: ((cs.drop 8).take 4 ++ '-' :: ((cs.drop 12).take 4 ++
    '-' :: ((cs.drop 16).take 4 ++ '-' :: cs.drop 20)))

/-- `str(uuid.UUID(int=u))`: canonical dashed lowercase-hex form. -/
def uuidToString (u : Nat) : String :=
  String.mk (withDashes ((natToFixed 16 32 u).map hexChar))

/-- `uuid.UUID(s).int`: CPython removes the dashes, requires 32 hex digits,
and reads them base 16 (`None` models the raised `ValueError`). -/
def uuidFromString (s : String) : Option Nat :=
  let hexs := s.toList.filter (fun c => c != '-')
  if hexs.length = 32 then parseFixed 16 hexVal hexs else none

/-! ## Naive datetimes and ISO-8601 strings

`datetime.utcnow()` yields a naive datetime; pydantic's JSON serialization
prints it with `isoformat()` (`YYYY-MM-DDTHH:MM:SS` plus `.ffffff` exactly
when the microsecond field is nonzero), and validation of an incoming string
parses that ISO-8601 form back. -/

structure PyDateTime where
  year : Nat
  month : Nat
  day : Nat
  hour : Nat
  minute : Nat
  second : Nat
  microsecond : Nat
deriving DecidableEq, Repr

/-- The invariants `datetime.__new__` enforces on its components. -/
def PyDateTime.Valid (t : PyDateTime) : Prop :=
  1 ≤ t.year ∧ t.year ≤ 9999 ∧ 1 ≤ t.month ∧ t.month ≤ 12 ∧
    1 ≤ t.day ∧ t.day ≤ 31 ∧ t.hour < 24 ∧ t.minute < 60 ∧ t.second < 60 ∧
    t.microsecond < 1000000

instance (t : PyDateTime) : Decidable t.Valid := by
  unfold PyDateTime.Valid; infer_instance

/-- Zero-padded fixed-width decimal field, as `isoformat` prints each
component. -/
def pad (w n : Nat) : List Char := (natToFixed 10 w n).map decChar

/-- `datetime.isoformat()` on a naive datetime. -/
def isoformat (t : PyDateTime) : String :=
  String.mk (pad 4 t.year ++ '-' :: (pad 2 t.month ++ '-' :: (pad 2 t.day ++
    'T' :: (pad 2 t.hour ++ ':' :: (pad 2 t.minute ++ ':' :: (pad 2 t.second ++
      (if t.microsecond = 0 then [] else '.' :: pad 6 t.microsecond)))))))

/-- Read a fixed-width decimal field off the front of a character list. -/
def readFixed (w : Nat) (cs : List Char) : Option (Nat × List Char) :=
  if (cs.take w).length = w then
    (parseFixed 10 decVal (cs.take w)).map (fun n => (n, cs.drop w))
  else none

/-- Consume one expected separator character. -/
def expectChar (c : Char) : List Char → Option (List Char)
  | [] => none
  | x :: xs => if x = c then some xs else none

/-- Parse the optional `.ffffff` suffix plus end of input. -/
def parseUsTail (y mo d h mi sec : Nat) : List Char → Option PyDateTime
  | [] => some ⟨y, mo, d, h, mi, sec, 0⟩
  | '.' :: rest =>
    if rest.length = 6 then
      (parseFixed 10 decVal rest).bind fun us =>
        some ⟨y, mo, d, h, mi, sec, us⟩
    else none
  | _ => none

/-- ISO-8601 parsing of the shapes `isoformat` emits (what pydantic's
datetime validation applies to an incoming string). -/
def parseIso8601 (s : String) : Option PyDateTime :=
  (readFixed 4 s.toList).bind fun p1 =>
  (expectChar '-' p1.2).bind fun cs2 =>
  (readFixed 2 cs2).bind fun p2 =>
  (expectChar '-' p2.2).bind fun cs4 =>
  (readFixed 2 cs4).bind fun p3 =>
  (expectChar 'T' p3.2).bind fun cs6 =>
  (readFixed 2 cs6).bind fun p4 =>
  (expectChar ':' p4.2).bind fun cs8 =>
  (readFixed 2 cs8).bind fun p5 =>
  (expectChar ':' p5.2).bind fun cs10 =>
  (readFixed 2 cs10).bind fun p6 =>
  parseUsTail p1.1 p2.1 p3.1 p4.1 p5.1 p6.1 p6.2

/-! ## JSON-compatible values

The flat mapping produced by `model_dump(mode="json")` and the deserialized
`json.loads` payload handed to handlers are both string-keyed mappings of
JSON-compatible values. -/

inductive Json where
  | null : Json
  | bool (b : Bool) : Json
  | num (n : Int) : Json
  | str (s : String) : Json
  | arr (xs : List Json) : Json
  | obj (fields : List (String × Json)) : Json
deriving BEq, Repr

/-- `dict.get(k)`: value of the first matching key, `None` if absent.
(The mappings in play are produced with distinct keys.) -/
def getKey (msg : List (String × Json)) (k : String) : Option Json :=
  (msg.find? (fun p => p.1 == k)).map (fun p => p.2)

/-- Python truthiness of a value obtained with `dict.get` (`None`, `""`, `0`,
`[]`, `{}` and `False` are falsy). -/
def pyTruthy : Option Json → Bool
  | none => false
  | some Json.null => false
  | some (Json.bool b) => b
  | some (Json.num n) => n != 0
  | some (Json.str s) => s != ""
  | some (Json.arr xs) => !xs.isEmpty
  | some (Json.obj fs) => !fs.isEmpty

/-- `uuid.UUID(x)` applied to a value obtained with `dict.get`: succeeds
exactly on strings carrying 32 hex digits (dashes ignored); any other value
raises (`TypeError`/`ValueError`), modelled as `none`. -/
def pyUuidOf : Option Json → Option Nat
  | some (Json.str s) => uuidFromString s
  | _ => none

/-! ## Event envelope (`shared/events/base.py`)

`BaseEvent` with `uuid.UUID` fields as 128-bit numbers and the naive
`datetime` timestamp as `PyDateTime`.  `metadata : Dict[str, Any]` is an open
string-keyed mapping of JSON-compatible values. -/

structure BaseEvent where
  event_id : Nat
  event_type : String
  timestamp : PyDateTime
  service : String
  version : String
  correlation_id : Option Nat
  user_id : Option Nat
  metadata : List (String × Json)
deriving BEq, Repr

/-- `BaseEvent.to_kafka_message` = `model_dump(mode="json")`: a flat mapping
of field name to JSON-compatible value, UUIDs and the timestamp as strings,
optional-null fields as JSON null. -/
def BaseEvent.to_kafka_message (e : BaseEvent) : List (String × Json) :=
  [("event_id", Json.str (uuidToString e.event_id)),
   ("event_type", Json.str e.event_type),
   ("timestamp", Json.str (isoformat e.timestamp)),
   ("service", Json.str e.service),
   ("version", Json.str e.version),
   ("correlation_id", match e.correlation_id with
     | none => Json.null
     | some u => Json.str (uuidToString u)),
   ("user_id", match e.user_id with
     | none => Json.null
     | some u => Json.str (uuidToString u)),
   ("metadata", Json.obj e.metadata)]

/-- Pydantic validation of one required string field. -/
def reqStr (msg : List (String × Json)) (k : String) : Option String :=
  match getKey msg k with
  | some (Json.str s) => some s
  | _ => none

/-- Pydantic validation of a required UUID field given as a string. -/
def reqUuid (msg : List (String × Json)) (k : String) : Option Nat :=
  (reqStr msg k).bind uuidFromString

/-- Pydantic validation of the timestamp field given as an ISO-8601 string. -/
def reqTimestamp (msg : List (String × Json)) (k : String) : Option PyDateTime :=
  (reqStr msg k).bind parseIso8601

/-- Pydantic validation of an `Optional[uuid.UUID]` field: null maps to
`None`, a string must parse as a UUID. -/
def optUuid (msg : List (String × Json)) (k : String) : Option (Option Nat) :=
  match getKey msg k with
  | some Json.null => some none
  | some (Json.str s) => (uuidFromString s).map some
  | _ => none

/-- Pydantic validation of the open `metadata` mapping. -/
def reqObj (msg : List (String × Json)) (k : String) : Option (List (String × Json)) :=
  match getKey msg k with
  | some (Json.obj o) => some o
  | _ => none

/-- `BaseEvent.from_kafka_message` = `cls(**message)`: pydantic validates
each field from the transport mapping (extra keys are ignored, a failed
validation raises, modelled as `none`).  The nondeterministic defaults
(`uuid4()`, `utcnow()`) that pydantic would supply for absent keys are not
modelled: every key is present in the mapping shape this contract covers, so
an absent key is modelled as a validation failure. -/
def BaseEvent.from_kafka_message (msg : List (String × Json)) : Option BaseEvent :=
  (reqUuid msg "event_id").bind fun eid =>
  (reqStr msg "event_type").bind fun etype =>
  (reqTimestamp msg "timestamp").bind fun ts =>
  (reqStr msg "service").bind fun svc =>
  (reqStr msg "version").bind fun ver =>
  (optUuid msg "correlation_id").bind fun cid =>
  (optUuid msg "user_id").bind fun uid =>
  (reqObj msg "metadata").bind fun md =>
  some ⟨eid, etype, ts, svc, ver, cid, uid, md⟩

/-- A UUID value fits in 128 bits. -/
def UuidValid : Option Nat → Prop
  | none => True
  | some u => u < 2 ^ 128

instance (o : Option Nat) : Decidable (UuidValid o) := by
  cases o <;> unfold UuidValid <;> infer_instance

/-- The invariants every envelope built by the Python runtime satisfies:
UUID fields are 128-bit values and the timestamp is a valid `datetime`. -/
def BaseEvent.Valid (e : BaseEvent) : Prop :=
  e.event_id < 2 ^ 128 ∧ e.timestamp.Valid ∧
    UuidValid e.correlation_id ∧ UuidValid e.user_id

instance (e : BaseEvent) : Decidable e.Valid := by
  unfold BaseEvent.Valid; infer_instance

/-! ## `UserRegisteredEvent` (`shared/events/user_events.py`)

The subtype declares
`event_type: str = Field(default="user.registered", frozen=True)` and
`service: str = Field(default="user-service", frozen=True)`, redeclares
`user_id` as a required UUID, and adds `email`, `username`,
`role` (default `"student"`) and `is_verified` (default `False`).

Pydantic's `frozen=True` forbids assignment after construction; it does not
reject a value supplied to the constructor (indeed
`BaseEvent.from_kafka_message` = `cls(**message)` relies on passing
`event_type` and `service` at construction).  The constructor is therefore
modelled over an explicit argument record in which `none` means "argument
omitted, the field default applies". -/

structure UserRegisteredEvent where
  event_id : Nat
  event_type : String
  timestamp : PyDateTime
  service : String
  version : String
  correlation_id : Option Nat
  user_id : Nat
  metadata : List (String × Json)
  email : String
  username : String
  role : String
  is_verified : Bool
deriving BEq, Repr

/-- Arguments supplied to `UserRegisteredEvent(...)`; `none` = omitted. -/
structure URCtorArgs where
  user_id : Nat
  email : String
  username : String
  event_id : Option Nat
  event_type : Option String
  timestamp : Option PyDateTime
  service : Option String
  version : Option String
  correlation_id : Option Nat
  metadata : Option (List (String × Json))
  role : Option String
  is_verified : Option Bool

/-- `UserRegisteredEvent(**args)`: each omitted argument is replaced by the
field's default; the `default_factory` defaults `uuid4()` / `utcnow()` are
passed explicitly as `freshId` / `now` since they are nondeterministic. -/
def UserRegisteredEvent.construct (freshId : Nat) (now : PyDateTime)
    (args : URCtorArgs) : UserRegisteredEvent :=
  { event_id := args.event_id.getD freshId
    event_type := args.event_type.getD "user.registered"
    timestamp := args.timestamp.getD now
    service := args.service.getD "user-service"
    version := args.version.getD "1.0"
    correlation_id := args.correlation_id
    user_id := args.user_id
    metadata := args.metadata.getD []
    email := args.email
    username := args.username
    role := args.role.getD "student"
    is_verified := args.is_verified.getD false }

/-- Constructor arguments with every optional argument omitted. -/
def URCtorArgs.basic (user_id : Nat) (email username : String) : URCtorArgs :=
  ⟨user_id, email, username, none, none, none, none, none, none, none, none, none⟩

/-! ## Notification model and repository
(`services/notification_service/app/models/notification.py`,
`shared/database/repository.py`,
`services/notification_service/app/repositories/notification_repository.py`)

The notifications table is modelled as the list of its rows.  Enum members
are represented by their string values (`NotificationStatus.PENDING =
"pending"`, …); column defaults (`status=PENDING`, `is_read=False`,
`created_at=utcnow`, fresh `id`) are applied at creation, with the
nondeterministic `uuid.uuid4()` / `datetime.utcnow()` passed explicitly. -/

structure Notification where
  id : Nat
  user_id : Nat
  type : String
  status : String
  title : String
  message : String
  event_type : Option String
  event_id : Option Nat
  is_read : Bool
  read_at : Option PyDateTime
  created_at : PyDateTime
  sent_at : Option PyDateTime
deriving BEq, Repr, DecidableEq

/-- The `notification_data` dictionary the handler passes to
`NotificationRepository.create`. -/
structure NotificationData where
  user_id : Nat
  type : String
  title : String
  message : String
  event_type : String
  event_id : Option Nat

/-- `BaseRepository.create` for the `Notification` model: instantiate the
model with the supplied data, remaining columns defaulted, and add the row. -/
def createNotification (freshId : Nat) (now : PyDateTime)
    (data : NotificationData) (store : List Notification) :
    Notification × List Notification :=
  let n : Notification :=
    { id := freshId
      user_id := data.user_id
      type := data.type
      status := "pending"
      title := data.title
      message := data.message
      event_type := some data.event_type
      event_id := data.event_id
      is_read := false
      read_at := none
      created_at := now
      sent_at := none }
  (n, store ++ [n])

/-- `NotificationRepository.mark_as_sent` =
`update(id, {"status": SENT, "sent_at": utcnow()})`: an UPDATE of the rows
whose `id` matches. -/
def mark_as_sent (now : PyDateTime) (id : Nat) (store : List Notification) :
    List Notification :=
  store.map fun n =>
    if n.id = id then { n with status := "sent", sent_at := some now } else n

/-! ## Event handlers
(`services/notification_service/app/handlers/user_events.py`)

`UserEventHandler` receives the deserialized Kafka payload (a string-keyed
JSON mapping).  Database effects and `print` logging are made explicit: each
handler maps the notification table and returns the new table plus the lines
it printed.  The fresh `uuid.uuid4()` row id and `datetime.utcnow()` are
passed explicitly. -/

/-- Python `str()` of a JSON value, as `print(f"...")` interpolates it
(container reprs abbreviated: no claim depends on them). -/
def jsonPyStr : Json → String
  | Json.null => "None"
  | Json.bool true => "True"
  | Json.bool false => "False"
  | Json.num n => toString n
  | Json.str s => s
  | Json.arr _ => "[...]"
  | Json.obj _ => "dict"

/-- `str()` of a `dict.get` result (absent key gave `None`). -/
def pyStrOpt : Option Json → String
  | none => "None"
  | some j => jsonPyStr j

/-- `UserEventHandler.handle_user_registered`.  The whole persistence block
is inside `try/except`, and the surrounding session context manager rolls
back on an exception, so a failure at any persistence step (here: a raising
`uuid.UUID(...)` conversion) leaves the table unchanged and is only logged.
On the success path: build `notification_data`, `repo.create` (row inserted
in `pending` status), `repo.mark_as_sent(notification.id)`, commit. -/
def handle_user_registered (freshId : Nat) (now : PyDateTime)
    (event : List (String × Json)) (store : List Notification) :
    List Notification × List String :=
  let user_id := getKey event "user_id"
  let email := getKey event "email"
  let username := getKey event "username"
  let event_id := getKey event "event_id"
  let logs := ["🎉 New user registered!",
               "   User ID: " ++ pyStrOpt user_id,
               "   Email: " ++ pyStrOpt email,
               "   Username: " ++ pyStrOpt username]
  let failLogs := logs ++ ["❌ Error saving notification: invalid UUID",
                           "✅ Welcome notification sent to " ++ pyStrOpt email]
  match pyUuidOf user_id with
  | none => (store, failLogs)
  | some uid =>
    let eidResult : Option (Option Nat) :=
      if pyTruthy event_id then (pyUuidOf event_id).map some else some none
    match eidResult with
    | none => (store, failLogs)
    | some eid =>
      let data : NotificationData :=
        { user_id := uid
          type := "in_app"
          title := "Welcome to EduPlatform! 🎓"
          message := "Hi " ++ pyStrOpt username ++
            "! Thank you for joining EduPlatform. Start exploring our courses and begin your learning journey today!"
          event_type := "user.registered"
          event_id := eid }
      let created := createNotification freshId now data store
      let store2 := mark_as_sent now created.1.id created.2
      (store2, logs ++
        ["✅ Notification saved to database: " ++ toString created.1.id,
         "✅ Welcome notification sent to " ++ pyStrOpt email])

/-- `UserEventHandler.handle_user_login`: reads `user_id` and
`login_method` (defaulting to `"unknown"` when the key is absent), prints,
and touches no table. -/
def handle_user_login (event : List (String × Json))
    (store : List Notification) : List Notification × List String :=
  let user_id := getKey event "user_id"
  let login_method := (getKey event "login_method").getD (Json.str "unknown")
  (store, ["🔐 User logged in: " ++ pyStrOpt user_id ++ " via " ++
    jsonPyStr login_method])

/-- Result of `UserEventHandler.route_event`: the table, the printed lines,
and which registered handler (if any) was invoked. -/
structure RouteResult where
  store : List Notification
  logs : List String
  dispatched : Option String
deriving Repr

/-- `UserEventHandler.route_event`: `handlers.get(event_type)` on the
handler dictionary keyed `"user.registered"` / `"user.login"`.  `dict.get`
hashes its key first: an `event_type` that deserialized to a JSON array or
object is an unhashable `list` / `dict`, so the lookup raises `TypeError`
(uncaught — nothing in `route_event` handles it), modelled as
`Except.error`.  Hashable values (`None`, booleans, numbers, strings) that
match no key make `get` return `None`: a warning is printed and the method
returns without invoking any handler. -/
def route_event (freshId : Nat) (now : PyDateTime)
    (event : List (String × Json)) (store : List Notification) :
    Except String RouteResult :=
  let event_type := getKey event "event_type"
  let noHandler : RouteResult :=
    ⟨store, ["⚠️  No handler for event type: " ++ pyStrOpt event_type], none⟩
  match event_type with
  | some (Json.str s) =>
    if s = "user.registered" then
      let r := handle_user_registered freshId now event store
      Except.ok ⟨r.1, r.2, some "user.registered"⟩
    else if s = "user.login" then
      let r := handle_user_login event store
      Except.ok ⟨r.1, r.2, some "user.login"⟩
    else Except.ok noHandler
  | some (Json.arr _) => Except.error "TypeError: unhashable type: list"
  | some (Json.obj _) => Except.error "TypeError: unhashable type: dict"
  | _ => Except.ok noHandler

/-! ## Kafka producer (`shared/messaging/kafka_producer.py`)

`KafkaProducerManager` holds `_producer: Optional[AIOKafkaProducer]`.  The
broker connection is represented by `some ()`; messages accepted by
`producer.send` are logged in `sent` (the success path of the transport —
the claims under verification concern only the not-started check). -/

structure KafkaProducerManager where
  producer : Option Unit
  sent : List (String × List (String × Json) × Option String)
deriving Repr

/-- `KafkaProducerManager.__init__`: no producer, nothing sent. -/
def KafkaProducerManager.init : KafkaProducerManager := ⟨none, []⟩

/-- `start()`: create and start the broker client if absent (idempotent). -/
def KafkaProducerManager.start (m : KafkaProducerManager) :
    KafkaProducerManager :=
  match m.producer with
  | none => { m with producer := some () }
  | some _ => m

/-- `send_event(topic, event_data, key)`: raises
`RuntimeError("Kafka producer not started")` when `_producer` is `None`,
otherwise hands the message to the broker client. -/
def KafkaProducerManager.send_event (m : KafkaProducerManager)
    (topic : String) (event_data : List (String × Json))
    (key : Option String) : Except String KafkaProducerManager :=
  match m.producer with
  | none => Except.error "Kafka producer not started"
  | some _ => Except.ok { m with sent := m.sent ++ [(topic, event_data, key)] }

/-! ## Kafka consumer loop (`shared/messaging/kafka_consumer.py`)

`KafkaConsumerManager.consume` iterates `async for message in
self._consumer`.  The `value_deserializer` (`json.loads`) installed in
`start()` is applied by the aiokafka client while fetching, so a
deserialization exception surfaces at the `async for` statement — outside
the per-message `try`, where only the outer `except Exception` catches it,
logs `"Consumer error"`, and the loop ends (`consume` itself returns).  A
handler exception is caught by the inner `try`, logged, and iteration
continues.  `consumeLoop` runs the loop over a list of raw records: it
returns the trace of (deserialized value passed to the handler, handler
outcome) and the outer-caught error, if any. -/

def consumeLoop {α β : Type} (deser : α → Except String β)
    (handler : β → Except String Unit) :
    List α → List (β × Except String Unit) × Option String
  | [] => ([], none)
  | r :: rs =>
    match deser r with
    | Except.error e => ([], some e)
    | Except.ok v =>
      let rest := consumeLoop deser handler rs
      ((v, handler v) :: rest.1, rest.2)

/-- Sample valid envelope used by concrete witnesses. -/
def sampleEnvelope : BaseEvent :=
  { event_id := 12345
    event_type := "user.registered"
    timestamp := ⟨2026, 10, 12, 1, 2, 3, 500000⟩
    service := "user-service"
    version := "1.0"
    correlation_id := none
    user_id := some 77
    metadata := [("request_id", Json.str "r1")] }

/-- Sample deserialized `user.registered` payload used by concrete
witnesses: a valid `user_id`, `email`, `username`, `event_id`. -/
def sampleRegisteredPayload : List (String × Json) :=
  [("event_id", Json.str "00000000-0000-0000-0000-00000000002a"),
   ("event_type", Json.str "user.registered"),
   ("user_id", Json.str "00000000-0000-0000-0000-000000000001"),
   ("email", Json.str "a@b.com"),
   ("username", Json.str "alice")]

/-- A concrete fixed timestamp for witnesses. -/
def sampleNow : PyDateTime := ⟨2026, 10, 12, 9, 30, 0, 0⟩

/-- The row `handle_user_registered` inserts on its success path, as
`repo.create` builds it from `notification_data` and the column defaults. -/
def welcomeRow (freshId : Nat) (now : PyDateTime)
    (event : List (String × Json)) (uid : Nat) (eid : Option Nat) :
    Notification where
  id := freshId
  user_id := uid
  type := "in_app"
  status := "pending"
  title := "Welcome to EduPlatform! 🎓"
  message := "Hi " ++ pyStrOpt (getKey event "username") ++
    "! Thank you for joining EduPlatform. Start exploring our courses and begin your learning journey today!"
  event_type := some "user.registered"
  event_id := eid
  is_read := false
  read_at := none
  created_at := now
  sent_at := none

/-! ## Concrete inputs for witnesses and counterexamples -/

/-- A handler that raises on the first record, used to witness failure
isolation. -/
def failingHandler (n : Nat) : Except String Unit :=
  if n = 1 then Except.error "boom" else Except.ok ()

/-- A deserializer (the role `json.loads` plays as `value_deserializer`)
that raises on one designated raw payload and succeeds on all others. -/
def deserFailsOn (bad : String) (raw : String) : Except String String :=
  if raw = bad then Except.error "DeserializationError" else Except.ok raw

/-- A payload whose `event_type` matches no registered handler. -/
def sampleUnknownPayload : List (String × Json) :=
  [("event_type", Json.str "unknown.thing"),
   ("user_id", Json.str "00000000-0000-0000-0000-000000000001")]

/-- A payload whose `event_type` deserialized to a JSON array — an
unhashable `list` on the Python side. -/
def sampleUnhashablePayload : List (String × Json) :=
  [("event_type", Json.arr [Json.num 1]),
   ("user_id", Json.str "00000000-0000-0000-0000-000000000001")]

/-- A `user.registered` payload with no `event_id` key. -/
def sampleNoEventIdPayload : List (String × Json) :=
  [("event_type", Json.str "user.registered"),
   ("user_id", Json.str "00000000-0000-0000-0000-000000000001"),
   ("email", Json.str "a@b.com"),
   ("username", Json.str "alice")]

/-- Constructor arguments that explicitly supply `event_type` and
`service`. -/
def overriddenArgs : URCtorArgs :=
  { URCtorArgs.basic 1 "a@b.com" "alice" with
    event_type := some "user.updated"
    service := some "course-service" }

/-! ## Properties -/

theorem fixedToNat_append_last (b : Nat) (ds : List Nat) (d : Nat) :
    fixedToNat b (ds ++ [d]) = fixedToNat b ds * b + d := by
  simp [fixedToNat, List.foldl_append]

theorem natToFixed_length (b w n : Nat) : (natToFixed b w n).length = w := by
  induction w generalizing n with
  | zero => rfl
  | succ w ih => simp [natToFixed, ih]

theorem natToFixed_lt (b w n : Nat) (hb : 0 < b) :
    ∀ d ∈ natToFixed b w n, d < b := by
  induction w generalizing n with
  | zero => intro d hd; simp [natToFixed] at hd
  | succ w ih =>
    intro d hd
    simp only [natToFixed, List.mem_append, List.mem_singleton] at hd
    rcases hd with hd | hd
    · exact ih (n / b) d hd
    · subst hd; exact Nat.mod_lt _ hb

theorem fixedToNat_natToFixed (b w n : Nat) (hb : 0 < b) (hn : n < b ^ w) :
    fixedToNat b (natToFixed b w n) = n := by
  induction w generalizing n with
  | zero =>
    simp only [pow_zero, Nat.lt_one_iff] at hn
    subst hn; rfl
  | succ w ih =>
    have hdiv : n / b < b ^ w := by
      rw [Nat.div_lt_iff_lt_mul hb]
      calc n < b ^ (w + 1) := hn
        _ = b ^ w * b := by ring
    rw [natToFixed, fixedToNat_append_last, ih (n / b) hdiv, Nat.mul_comm]
    exact Nat.div_add_mod n b

theorem hexVal_hexChar (d : Nat) (hd : d < 16) : hexVal (hexChar d) = some d := by
  interval_cases d <;> rfl

theorem decVal_decChar (d : Nat) (hd : d < 10) : decVal (decChar d) = some d := by
  interval_cases d <;> rfl

theorem hexChar_ne_dash (d : Nat) (hd : d < 16) : hexChar d ≠ '-' := by
  interval_cases d <;> decide

theorem digitsVal_map (val : Char → Option Nat) (chr : Nat → Char)
    (ds : List Nat) (h : ∀ d ∈ ds, val (chr d) = some d) :
    digitsVal val (ds.map chr) = some ds := by
  induction ds with
  | nil => rfl
  | cons d ds ih =>
    have hd : val (chr d) = some d := h d (List.mem_cons_self d ds)
    have hds := ih fun x hx => h x (List.mem_cons_of_mem d hx)
    simp [digitsVal, hd, hds]

theorem parseFixed_roundtrip (b w n : Nat) (val : Char → Option Nat)
    (chr : Nat → Char) (hb : 0 < b) (hn : n < b ^ w)
    (hvc : ∀ d, d < b → val (chr d) = some d) :
    parseFixed b val ((natToFixed b w n).map chr) = some n := by
  have hdig := digitsVal_map val chr (natToFixed b w n)
    (fun d hd => hvc d (natToFixed_lt b w n hb d hd))
  simp [parseFixed, hdig, fixedToNat_natToFixed b w n hb hn]

theorem hexChar_bne_dash (d : Nat) (hd : d < 16) : (hexChar d != '-') = true := by
  interval_cases d <;> decide

theorem take_split_8_4_4_4_12 (cs : List Char) :
    cs.take 8 ++ ((cs.drop 8).take 4 ++ ((cs.drop 12).take 4 ++
      ((cs.drop 16).take 4 ++ cs.drop 20))) = cs := by
  have h12 := List.take_add cs 8 4
  have h16 := List.take_add cs 12 4
  have h20 := List.take_add cs 16 4
  norm_num at h12 h16 h20
  rw [← List.append_assoc, ← h12, ← List.append_assoc, ← h16,
    ← List.append_assoc, ← h20, List.take_append_drop]

theorem filter_withDashes (cs : List Char) (h : ∀ c ∈ cs, (c != '-') = true) :
    (withDashes cs).filter (fun c => c != '-') = cs := by
  have hseg : ∀ ds : List Char, ds ⊆ cs →
      ds.filter (fun c => c != '-') = ds := by
    intro ds hds
    exact List.filter_eq_self.mpr fun c hc => h c (hds hc)
  have hdash : (('-' : Char) != '-') = false := by decide
  simp only [withDashes, List.filter_append, List.filter_cons, hdash,
    Bool.false_eq_true, if_false,
    hseg _ (List.take_subset ..), hseg _ (List.drop_subset ..),
    hseg _ (Trans.trans (List.take_subset ..) (List.drop_subset ..))]
  exact take_split_8_4_4_4_12 cs

theorem uuidFromString_uuidToString (u : Nat) (hu : u < 2 ^ 128) :
    uuidFromString (uuidToString u) = some u := by
  have hchars : ∀ c ∈ (natToFixed 16 32 u).map hexChar, (c != '-') = true := by
    intro c hc
    rcases List.mem_map.mp hc with ⟨d, hd, rfl⟩
    exact hexChar_bne_dash d (natToFixed_lt 16 32 u (by norm_num) d hd)
  have hfilter := filter_withDashes _ hchars
  have hlen : ((natToFixed 16 32 u).map hexChar).length = 32 := by
    rw [List.length_map, natToFixed_length]
  have hparse : parseFixed 16 hexVal ((natToFixed 16 32 u).map hexChar) = some u :=
    parseFixed_roundtrip 16 32 u hexVal hexChar (by norm_num)
      (by calc u < 2 ^ 128 := hu
            _ = 16 ^ 32 := by norm_num)
      (fun d hd => hexVal_hexChar d hd)
  simp only [uuidFromString, uuidToString, String.toList]
  rw [hfilter, if_pos hlen, hparse]

theorem pad_length (w n : Nat) : (pad w n).length = w := by
  rw [pad, List.length_map, natToFixed_length]

theorem parseFixed_pad (w n : Nat) (hn : n < 10 ^ w) :
    parseFixed 10 decVal (pad w n) = some n :=
  parseFixed_roundtrip 10 w n decVal decChar (by norm_num) hn
    (fun d hd => decVal_decChar d hd)

theorem take_append_of_length (w : Nat) (l rest : List Char)
    (hl : l.length = w) : (l ++ rest).take w = l := by
  rw [← hl]; exact List.take_left ..

theorem drop_append_of_length (w : Nat) (l rest : List Char)
    (hl : l.length = w) : (l ++ rest).drop w = rest := by
  rw [← hl]; exact List.drop_left ..

theorem readFixed_pad (w n : Nat) (hn : n < 10 ^ w) (rest : List Char) :
    readFixed w (pad w n ++ rest) = some (n, rest) := by
  rw [readFixed, take_append_of_length w _ rest (pad_length w n),
    drop_append_of_length w _ rest (pad_length w n),
    if_pos (pad_length w n), parseFixed_pad w n hn]
  rfl

theorem expectChar_cons (c : Char) (rest : List Char) :
    expectChar c (c :: rest) = some rest := by
  simp [expectChar]

theorem parseIso8601_isoformat (t : PyDateTime) (ht : t.Valid) :
    parseIso8601 (isoformat t) = some t := by
  obtain ⟨y, mo, d, h, mi, sec, us⟩ := t
  obtain ⟨hy1, hy2, hm1, hm2, hd1, hd2, hh, hmi, hs, hus⟩ := ht
  simp only at hy1 hy2 hm1 hm2 hd1 hd2 hh hmi hs hus
  have hy : y < 10 ^ 4 := by omega
  have hmo : mo < 10 ^ 2 := by omega
  have hd : d < 10 ^ 2 := by omega
  have hho : h < 10 ^ 2 := by omega
  have hmin : mi < 10 ^ 2 := by omega
  have hsec : sec < 10 ^ 2 := by omega
  have hmic : us < 10 ^ 6 := by omega
  simp only [parseIso8601, isoformat, String.toList,
    readFixed_pad 4 y hy, readFixed_pad 2 mo hmo,
    readFixed_pad 2 d hd, readFixed_pad 2 h hho,
    readFixed_pad 2 mi hmin, readFixed_pad 2 sec hsec,
    expectChar_cons, Option.some_bind]
  by_cases h0 : us = 0
  · subst h0
    simp [parseUsTail]
  · rw [if_neg h0]
    simp only [parseUsTail, pad_length, if_pos rfl,
      parseFixed_pad 6 us hmic, Option.some_bind]
    simp

/-! ## Helper lemmas -/

theorem mark_as_sent_append (now : PyDateTime) (n : Notification)
    (store : List Notification) (hfresh : ∀ r ∈ store, r.id ≠ n.id) :
    mark_as_sent now n.id (store ++ [n]) =
      store ++ [{ n with status := "sent", sent_at := some now }] := by
  induction store with
  | nil => simp [mark_as_sent]
  | cons a as ih =>
    have ha : a.id ≠ n.id := hfresh a (List.mem_cons_self a as)
    have has := ih fun r hr => hfresh r (List.mem_cons_of_mem a hr)
    simp only [mark_as_sent, List.map_cons, if_neg ha] at *
    simp only [List.cons_append, List.map_cons, if_neg ha, List.cons.injEq,
      true_and]
    exact has

/-- The success path of `handle_user_registered`: when `uuid.UUID(user_id)`
succeeds and the `event_id` expression evaluates without raising, exactly one
row is inserted — created `pending`, then transitioned to `sent` with
`sent_at` set by `mark_as_sent`, in the same handler invocation. -/
theorem handle_user_registered_success (freshId : Nat) (now : PyDateTime)
    (event : List (String × Json)) (store : List Notification)
    (uid : Nat) (eid : Option Nat)
    (huid : pyUuidOf (getKey event "user_id") = some uid)
    (heid : (if pyTruthy (getKey event "event_id") then
        (pyUuidOf (getKey event "event_id")).map some else some none) =
        some eid)
    (hfresh : ∀ r ∈ store, r.id ≠ freshId) :
    ∃ p : Notification,
      p.status = "pending" ∧ p.sent_at = none ∧ p.id = freshId ∧
      p.user_id = uid ∧ p.event_id = eid ∧
      p.title = "Welcome to EduPlatform! 🎓" ∧
      p.event_type = some "user.registered" ∧ p.created_at = now ∧
      (handle_user_registered freshId now event store).1 =
        store ++ [{ p with status := "sent", sent_at := some now }] := by
  refine ⟨welcomeRow freshId now event uid eid,
    rfl, rfl, rfl, rfl, rfl, rfl, rfl, rfl, ?_⟩
  simp only [handle_user_registered, huid, heid, createNotification]
  exact mark_as_sent_append now (welcomeRow freshId now event uid eid)
    store hfresh

theorem uuidFromString_empty : uuidFromString "" = none := rfl

/-- From a payload carrying parseable `user_id` and `event_id` strings, the
two conversions inside the handler's `try` block succeed. -/
theorem registered_payload_parses (event : List (String × Json))
    (us es : String) (u eidv : Nat)
    (husr : getKey event "user_id" = some (Json.str us))
    (hus : uuidFromString us = some u)
    (hesr : getKey event "event_id" = some (Json.str es))
    (hes : uuidFromString es = some eidv) :
    pyUuidOf (getKey event "user_id") = some u ∧
    (if pyTruthy (getKey event "event_id") then
      (pyUuidOf (getKey event "event_id")).map some else some none) =
      some (some eidv) := by
  have hne : es ≠ "" := by
    intro h; rw [h, uuidFromString_empty] at hes; exact Option.noConfusion hes
  refine ⟨by rw [husr]; exact hus, ?_⟩
  have ht : pyTruthy (getKey event "event_id") = true := by
    rw [hesr]; simp [pyTruthy, hne]
  rw [ht, if_pos rfl, hesr]
  show (uuidFromString es).map some = some (some eidv)
  rw [hes]; rfl

/-! ## Claims -/

/-- C1: for every valid event envelope `e` (including envelopes whose
optional `correlation_id` / `user_id` fields are null), deserializing the
flat string-keyed mapping produced by serializing `e`
(`BaseEvent.from_kafka_message` applied to `BaseEvent.to_kafka_message e`)
yields an envelope equal to `e` field for field. -/
theorem c1_envelope_roundtrip (e : BaseEvent) (he : e.Valid) :
    BaseEvent.from_kafka_message e.to_kafka_message = some e := by
  obtain ⟨eid, etype, ts, svc, ver, cid, uid, md⟩ := e
  obtain ⟨h1, h2, h3, h4⟩ := he
  have heid := uuidFromString_uuidToString eid h1
  have hts := parseIso8601_isoformat ts h2
  rcases cid with _ | cu <;> rcases uid with _ | uu <;>
    [skip; (have huu := uuidFromString_uuidToString uu h4);
     (have hcu := uuidFromString_uuidToString cu h3);
     (have hcu := uuidFromString_uuidToString cu h3;
      have huu := uuidFromString_uuidToString uu h4)] <;>
    simp_all [BaseEvent.from_kafka_message, BaseEvent.to_kafka_message,
      reqUuid, reqStr, reqTimestamp, optUuid, reqObj, getKey]

/-- Witness for C1 at a concrete valid envelope. -/
theorem c1_envelope_roundtrip_witness :
    sampleEnvelope.Valid ∧
    BaseEvent.from_kafka_message sampleEnvelope.to_kafka_message =
      some sampleEnvelope :=
  ⟨by decide, c1_envelope_roundtrip sampleEnvelope (by decide)⟩

/-- C2: for every `user.registered` event mapping carrying a valid
`user_id`, `email`, `username` and `event_id`, when the persistence steps
succeed (the fresh row id collides with no existing row), the handler
appends exactly one notification row — created in `pending` status and, in
the same invocation, transitioned to `sent` with `sent_at` set — whose
title contains `"Welcome"` and whose `event_id` equals the envelope's
`event_id`. -/
theorem c2_welcome_notification (freshId : Nat) (now : PyDateTime)
    (event : List (String × Json)) (store : List Notification)
    (us es : String) (u eidv : Nat)
    (husr : getKey event "user_id" = some (Json.str us))
    (hus : uuidFromString us = some u)
    (hesr : getKey event "event_id" = some (Json.str es))
    (hes : uuidFromString es = some eidv)
    (hfresh : ∀ r ∈ store, r.id ≠ freshId) :
    ∃ p : Notification,
      p.status = "pending" ∧
      (handle_user_registered freshId now event store).1 =
        store ++ [{ p with status := "sent", sent_at := some now }] ∧
      (∃ a b, p.title = a ++ "Welcome" ++ b) ∧
      p.event_id = some eidv := by
  obtain ⟨huid, heid⟩ :=
    registered_payload_parses event us es u eidv husr hus hesr hes
  obtain ⟨p, hp1, _, _, _, hpe, hpt, _, _, hstore⟩ :=
    handle_user_registered_success freshId now event store u (some eidv)
      huid heid hfresh
  refine ⟨p, hp1, hstore, ⟨"", " to EduPlatform! 🎓", ?_⟩, hpe⟩
  rw [hpt]; rfl

/-- Witness for C2 at a concrete payload (user id `1`, event id `0x2a`). -/
theorem c2_welcome_notification_witness :
    ∃ p : Notification,
      p.status = "pending" ∧
      (handle_user_registered 5 sampleNow sampleRegisteredPayload []).1 =
        [] ++ [{ p with status := "sent", sent_at := some sampleNow }] ∧
      (∃ a b, p.title = a ++ "Welcome" ++ b) ∧
      p.event_id = some 42 :=
  c2_welcome_notification 5 sampleNow sampleRegisteredPayload []
    "00000000-0000-0000-0000-000000000001"
    "00000000-0000-0000-0000-00000000002a" 1 42 rfl rfl rfl rfl
    (by simp)

/-- C3: if every record of the batch deserializes, then every record —
including each record following one on which the handler raises — is
fetched and passed to the handler; the handler outcomes are recorded
(caught and logged) and the loop finishes without an outer error. -/
theorem c3_consumer_failure_isolation {α β : Type}
    (deser : α → Except String β) (handler : β → Except String Unit)
    (records : List α) (f : α → β)
    (hdes : ∀ r ∈ records, deser r = Except.ok (f r)) :
    consumeLoop deser handler records =
      (records.map fun r => (f r, handler (f r)), none) := by
  induction records with
  | nil => rfl
  | cons r rs ih =>
    have hr := hdes r (List.mem_cons_self r rs)
    have hrs := ih fun x hx => hdes x (List.mem_cons_of_mem r hx)
    simp [consumeLoop, hr, hrs]

/-- Witness for C3: the handler raises on record 1, record 2 is still
dispatched. -/
theorem c3_consumer_failure_isolation_witness :
    consumeLoop (fun n : Nat => Except.ok n) failingHandler [1, 2] =
      ([(1, Except.error "boom"), (2, Except.ok ())], none) := by
  have h := c3_consumer_failure_isolation (fun n : Nat => Except.ok n)
    failingHandler [1, 2] id (fun r _ => rfl)
  simpa [failingHandler] using h

/-- C4 counterexample: a record whose payload fails deserialization does
not get skipped — the loop terminates and the subsequent record
`"good-record"` is never passed to the handler. -/
theorem c4_counterexample :
    consumeLoop (deserFailsOn "not-json") (fun _ => Except.ok ())
      ["not-json", "good-record"] = ([], some "DeserializationError") ∧
    ("good-record", Except.ok ()) ∉
      (consumeLoop (deserFailsOn "not-json") (fun _ => Except.ok ())
        ["not-json", "good-record"]).1 := by
  refine ⟨rfl, ?_⟩
  intro htr
  have h0 : (consumeLoop (deserFailsOn "not-json") (fun _ => Except.ok ())
      ["not-json", "good-record"]).1 = [] := rfl
  rw [h0] at htr
  exact absurd htr (List.not_mem_nil _)

/-- C4 amended: a deserialization failure surfaces at the record iterator,
outside the per-message `try`; the outer handler catches and logs it and the
consume loop terminates (returning, not raising) — records before the
malformed one are dispatched, the malformed record and all records after it
are not. -/
theorem c4_deserialization_terminates_loop {α β : Type}
    (deser : α → Except String β) (handler : β → Except String Unit)
    (f : α → β) (good : List α) (bad : α) (rest : List α) (e : String)
    (hgood : ∀ r ∈ good, deser r = Except.ok (f r))
    (hbad : deser bad = Except.error e) :
    consumeLoop deser handler (good ++ bad :: rest) =
      (good.map fun r => (f r, handler (f r)), some e) := by
  induction good with
  | nil => simp [consumeLoop, hbad]
  | cons r rs ih =>
    have hr := hgood r (List.mem_cons_self r rs)
    have hrs := ih fun x hx => hgood x (List.mem_cons_of_mem r hx)
    simp [consumeLoop, hr, hrs]

/-- Witness for the amended C4: one good record before the malformed one is
dispatched; the record after it is not. -/
theorem c4_deserialization_terminates_loop_witness :
    consumeLoop (deserFailsOn "not-json") (fun _ => Except.ok ())
      (["rec-a"] ++ "not-json" :: ["rec-b"]) =
      ([("rec-a", Except.ok ())], some "DeserializationError") := by
  have h := c4_deserialization_terminates_loop (deserFailsOn "not-json")
    (fun _ => Except.ok ()) id ["rec-a"] "not-json" ["rec-b"]
    "DeserializationError"
    (by intro r hr; simp only [List.mem_singleton] at hr; subst hr; rfl) rfl
  simpa using h

/-- C5 counterexample: an `event_type` that deserialized to a JSON array is
not a registered type, yet `route_event` does not log-and-return — the
`handlers.get(event_type)` lookup hashes the unhashable `list` and raises
an uncaught `TypeError`. -/
theorem c5_counterexample :
    route_event 0 sampleNow sampleUnhashablePayload [] =
      Except.error "TypeError: unhashable type: list" := rfl

/-- C5 amended: on an event mapping whose `event_type` is absent or a
hashable JSON value (null, boolean, number or string) other than the
registered types, `route_event` invokes no handler, leaves the notification
table unchanged, logs one warning line, and returns without raising; an
unhashable `event_type` (array/object) instead makes `handlers.get` raise
an uncaught `TypeError`. -/
theorem c5_router_unknown_type (freshId : Nat) (now : PyDateTime)
    (event : List (String × Json)) (store : List Notification)
    (h1 : getKey event "event_type" ≠ some (Json.str "user.registered"))
    (h2 : getKey event "event_type" ≠ some (Json.str "user.login"))
    (h3 : ∀ xs, getKey event "event_type" ≠ some (Json.arr xs))
    (h4 : ∀ fs, getKey event "event_type" ≠ some (Json.obj fs)) :
    route_event freshId now event store =
      Except.ok ⟨store, ["⚠️  No handler for event type: " ++
        pyStrOpt (getKey event "event_type")], none⟩ := by
  simp only [route_event]
  rcases hk : getKey event "event_type" with _ | jv
  · rfl
  · cases jv with
    | str s =>
      have hs1 : s ≠ "user.registered" := by
        intro h; exact h1 (by rw [hk, h])
      have hs2 : s ≠ "user.login" := by
        intro h; exact h2 (by rw [hk, h])
      simp only [if_neg hs1, if_neg hs2]
    | null => rfl
    | bool b => rfl
    | num n => rfl
    | arr xs => exact absurd hk (h3 xs)
    | obj fs => exact absurd hk (h4 fs)

/-- Witness for the amended C5 at `event_type = "unknown.thing"`. -/
theorem c5_router_unknown_type_witness :
    route_event 0 sampleNow sampleUnknownPayload [] =
      Except.ok ⟨[], ["⚠️  No handler for event type: " ++
        pyStrOpt (getKey sampleUnknownPayload "event_type")], none⟩ :=
  c5_router_unknown_type 0 sampleNow sampleUnknownPayload []
    (by intro h; simp [sampleUnknownPayload, getKey] at h)
    (by intro h; simp [sampleUnknownPayload, getKey] at h)
    (by intro xs h; simp [sampleUnknownPayload, getKey] at h)
    (by intro fs h; simp [sampleUnknownPayload, getKey] at h)

/-- C6 counterexample: invoking the `user.registered` handler twice with
the same event mapping (same `event_id`) leaves two notification rows, not
one — the second invocation does add a row. -/
theorem c6_counterexample :
    (handle_user_registered 5 sampleNow sampleRegisteredPayload []).1.length
      = 1 ∧
    (handle_user_registered 7 sampleNow sampleRegisteredPayload
      (handle_user_registered 5 sampleNow sampleRegisteredPayload []).1).1.length
      = 2 := ⟨rfl, rfl⟩

/-- C6 amended: the handler is not idempotent — no deduplication on
`event_id` exists, so a second invocation with the same event mapping
appends a second notification row (two rows beyond the original table). -/
theorem c6_not_idempotent (f1 f2 : Nat) (t1 t2 : PyDateTime)
    (event : List (String × Json)) (store : List Notification)
    (us es : String) (u eidv : Nat)
    (husr : getKey event "user_id" = some (Json.str us))
    (hus : uuidFromString us = some u)
    (hesr : getKey event "event_id" = some (Json.str es))
    (hes : uuidFromString es = some eidv)
    (hfresh1 : ∀ r ∈ store, r.id ≠ f1)
    (hfresh2 : ∀ r ∈ store, r.id ≠ f2) (hne : f1 ≠ f2) :
    (handle_user_registered f2 t2 event
      (handle_user_registered f1 t1 event store).1).1.length =
      store.length + 2 := by
  obtain ⟨huid, heid⟩ :=
    registered_payload_parses event us es u eidv husr hus hesr hes
  obtain ⟨p1, _, _, hid1, _, _, _, _, _, hstore1⟩ :=
    handle_user_registered_success f1 t1 event store u (some eidv)
      huid heid hfresh1
  have hfresh2' : ∀ r ∈ (handle_user_registered f1 t1 event store).1,
      r.id ≠ f2 := by
    intro r hr
    rw [hstore1] at hr
    rcases List.mem_append.mp hr with hr | hr
    · exact hfresh2 r hr
    · rw [List.mem_singleton] at hr
      subst hr
      show p1.id ≠ f2
      rw [hid1]; exact hne
  obtain ⟨p2, _, _, _, _, _, _, _, _, hstore2⟩ :=
    handle_user_registered_success f2 t2 event
      (handle_user_registered f1 t1 event store).1 u (some eidv)
      huid heid hfresh2'
  rw [hstore2, hstore1]
  simp [List.length_append]

/-- Witness for the amended C6 at the concrete payload. -/
theorem c6_not_idempotent_witness :
    (handle_user_registered 7 sampleNow sampleRegisteredPayload
      (handle_user_registered 5 sampleNow sampleRegisteredPayload []).1).1.length
      = ([] : List Notification).length + 2 :=
  c6_not_idempotent 5 7 sampleNow sampleNow sampleRegisteredPayload []
    "00000000-0000-0000-0000-000000000001"
    "00000000-0000-0000-0000-00000000002a" 1 42 rfl rfl rfl rfl
    (by simp) (by simp) (by decide)

/-- C7 counterexample: pydantic's `frozen=True` forbids assignment after
construction but does not reject constructor arguments, so supplying
`event_type` / `service` at construction does override the subtype tags
(`from_kafka_message` itself passes them through `cls(**message)`). -/
theorem c7_counterexample :
    (UserRegisteredEvent.construct 0 sampleNow overriddenArgs).event_type
      ≠ "user.registered" ∧
    (UserRegisteredEvent.construct 0 sampleNow overriddenArgs).service
      ≠ "user-service" := by
  constructor <;> decide

/-- C7 amended: `event_type` and `service` are constant defaults — every
`UserRegisteredEvent` constructed without explicitly supplying them has
`event_type = "user.registered"` and `service = "user-service"` (they are
immutable after construction, but they can be overridden by explicit
constructor arguments). -/
theorem c7_default_tags (freshId : Nat) (now : PyDateTime)
    (args : URCtorArgs) (h1 : args.event_type = none)
    (h2 : args.service = none) :
    (UserRegisteredEvent.construct freshId now args).event_type =
      "user.registered" ∧
    (UserRegisteredEvent.construct freshId now args).service =
      "user-service" := by
  simp [UserRegisteredEvent.construct, h1, h2]

/-- Witness for the amended C7 at a constructor call that omits both. -/
theorem c7_default_tags_witness :
    (UserRegisteredEvent.construct 3 sampleNow
      (URCtorArgs.basic 1 "a@b.com" "alice")).event_type =
      "user.registered" ∧
    (UserRegisteredEvent.construct 3 sampleNow
      (URCtorArgs.basic 1 "a@b.com" "alice")).service = "user-service" :=
  c7_default_tags 3 sampleNow (URCtorArgs.basic 1 "a@b.com" "alice") rfl rfl

/-- C8: `send_event` on a manager on which `start()` has not run raises
`RuntimeError("Kafka producer not started")` and sends nothing; after
`start()` completes it does not raise that error but hands the message to
the broker client. -/
theorem c8_producer_not_started (topic : String)
    (data : List (String × Json)) (key : Option String) :
    KafkaProducerManager.init.send_event topic data key =
      Except.error "Kafka producer not started" ∧
    KafkaProducerManager.init.sent = [] ∧
    ∀ m : KafkaProducerManager,
      (m.start).send_event topic data key =
        Except.ok { m.start with sent := m.start.sent ++ [(topic, data, key)] } := by
  refine ⟨rfl, rfl, ?_⟩
  intro m
  rcases m with ⟨_ | _, sent⟩ <;> rfl

/-- C9: `handle_user_login` performs no persisted side effect: the
notification table is returned unchanged for every event mapping (the
handler only prints; it contains no raising operation). -/
theorem c9_login_no_side_effect (event : List (String × Json))
    (store : List Notification) :
    (handle_user_login event store).1 = store := rfl

/-- C10: on a `user.registered` mapping with a valid `user_id` whose
`event_id` key is absent, `None`, or the empty string, the handler still
appends one row, created `pending` and marked `sent`, with the row's
`event_id` null. -/
theorem c10_missing_event_id (freshId : Nat) (now : PyDateTime)
    (event : List (String × Json)) (store : List Notification)
    (us : String) (u : Nat)
    (husr : getKey event "user_id" = some (Json.str us))
    (hus : uuidFromString us = some u)
    (heidk : getKey event "event_id" = none ∨
      getKey event "event_id" = some Json.null ∨
      getKey event "event_id" = some (Json.str ""))
    (hfresh : ∀ r ∈ store, r.id ≠ freshId) :
    ∃ p : Notification,
      p.status = "pending" ∧ p.event_id = none ∧
      (handle_user_registered freshId now event store).1 =
        store ++ [{ p with status := "sent", sent_at := some now }] := by
  have huid : pyUuidOf (getKey event "user_id") = some u := by
    rw [husr]; exact hus
  have ht : pyTruthy (getKey event "event_id") = false := by
    rcases heidk with h | h | h <;> rw [h] <;> rfl
  have heid : (if pyTruthy (getKey event "event_id") then
      (pyUuidOf (getKey event "event_id")).map some else some none) =
      some none := by
    rw [ht]; rfl
  obtain ⟨p, hp1, _, _, _, hpe, _, _, _, hstore⟩ :=
    handle_user_registered_success freshId now event store u none
      huid heid hfresh
  exact ⟨p, hp1, hpe, hstore⟩

/-- Witness for C10 at a payload lacking the `event_id` key. -/
theorem c10_missing_event_id_witness :
    ∃ p : Notification,
      p.status = "pending" ∧ p.event_id = none ∧
      (handle_user_registered 5 sampleNow sampleNoEventIdPayload []).1 =
        [] ++ [{ p with status := "sent", sent_at := some sampleNow }] :=
  c10_missing_event_id 5 sampleNow sampleNoEventIdPayload []
    "00000000-0000-0000-0000-000000000001" 1 rfl rfl (Or.inl rfl)
    (by simp)

end Edu
